import Mathlib

/-!
Verification of the HotShotXL motion-module file
(animatediff/motion_module_hsxl.py) against its specification.

Tensors are modelled by their shapes (a list of dimension sizes), weight
dictionaries by insertion-ordered association lists, and Python exceptions by
an explicit error type threaded through Except.  String helpers are written
over character lists so that every definition evaluates inside the kernel.
-/

set_option autoImplicit false

namespace MotionHSXL

/-- A torch tensor, modelled by its shape (list of dimension sizes). -/
structure Tensor where
  shape : List Nat
deriving Repr, DecidableEq

/-- A weight dictionary (`mm_state_dict`): dotted string keys mapped to
tensors, in insertion order, as a Python dict iterates. -/
abbrev StateDict := List (String × Tensor)

/-- The Python exception kinds this file can raise.
`motionCompatibilityError` is the `IncompatibleCheckpoint` of the spec
(`MotionCompatibilityError` imported from motion_utils). -/
inductive PyError where
  | motionCompatibilityError (msg : String)
  | typeError (msg : String)
  | indexError (msg : String)
  | valueError (msg : String)
  | runtimeError (msg : String)
deriving Repr, DecidableEq

instance instDecEqExcept {ε α : Type} [DecidableEq ε] [DecidableEq α] :
    DecidableEq (Except ε α) := fun x y =>
  match x, y with
  | .ok a, .ok b => decidable_of_iff (a = b) (by simp)
  | .error a, .error b => decidable_of_iff (a = b) (by simp)
  | .ok _, .error _ => isFalse (by simp)
  | .error _, .ok _ => isFalse (by simp)

/-- Substring test on character lists: Python `needle in hay`. -/
def charListInfix (needle : List Char) : List Char → Bool
  | [] => needle.isEmpty
  | c :: rest => needle.isPrefixOf (c :: rest) || charListInfix needle rest

/-- Python `needle in hay` for strings (substring containment). -/
def strContainsSub (hay needle : String) : Bool :=
  charListInfix needle.toList hay.toList

/-- Python `s.endswith(suffix)`. -/
def strEndsWith (s suffix : String) : Bool :=
  List.isSuffixOf suffix.toList s.toList

/-- Python `s.startswith(p)`. -/
def strStartsWith (s p : String) : Bool :=
  List.isPrefixOf p.toList s.toList

/-- Split a character list at a separator character: Python `s.split(sep)`
for a one-character separator. -/
def splitOnCharAux (sep : Char) : List Char → List Char → List (List Char)
  | [], acc => [acc.reverse]
  | c :: rest, acc =>
    if c = sep then acc.reverse :: splitOnCharAux sep rest []
    else splitOnCharAux sep rest (c :: acc)

/-- Python `key.split(".")`. -/
def splitDot (s : String) : List String :=
  (splitOnCharAux '.' s.toList []).map (fun cs => String.mk cs)

/-- Parse a nonempty all-digit character list as a natural number. -/
def digitsToNat : List Char → Option Nat
  | [] => none
  | cs => cs.foldl
      (fun acc c =>
        match acc with
        | none => none
        | some n => if c.isDigit then some (n * 10 + (c.toNat - 48)) else none)
      (some 0)

/-- Python `int(s)` on a dotted-key segment: an optional leading minus sign
followed by decimal digits; anything else raises ValueError (here: none).
(Python also tolerates surrounding whitespace, a leading plus and digit
underscores; the keys this file scans never use those forms.) -/
def pyInt? (s : String) : Option Int :=
  match s.toList with
  | '-' :: rest => (digitsToNat rest).map (fun n => -(n : Int))
  | cs => (digitsToNat cs).map (fun n => (n : Int))

/-- get_hsxl_temporal_position_encoding_max_len: scan keys for the first one
ending in "pos_encoder.positional_encoding" and return its tensor's size(1)
(the middle dimension of the expected [1, max_length, channels] buffer);
raise MotionCompatibilityError when no such key exists.  torch size(1) on a
tensor of fewer than two dimensions raises IndexError. -/
def get_hsxl_temporal_position_encoding_max_len (mm_state_dict : StateDict)
    (mm_type : String) : Except PyError Nat :=
  match mm_state_dict.find? (fun kv => strEndsWith kv.1 "pos_encoder.positional_encoding") with
  | some kv =>
    match kv.2.shape.get? 1 with
    | some n => .ok n
    | none => .error (.indexError "Dimension out of range")
  | none => .error (.motionCompatibilityError
      ("No pos_encoder.positional_encoding found in mm_state_dict - " ++ mm_type
        ++ " is not a valid HotShotXL motion module!"))

/-- The scanning loop of validate_hsxl_block_count: for every key containing
"down_blocks", take the key's SECOND dotted segment (`key.split(".")[1]`),
try `int(...)` on it (a ValueError is caught and ignored), and track the
biggest value seen (starting from 0).  Indexing `[1]` on a key with no dot
raises IndexError, which the `except ValueError` clause does not catch. -/
def biggestDownBlock : List (String × Tensor) → Int → Except PyError Int
  | [], acc => .ok acc
  | (k, _) :: rest, acc =>
    if strContainsSub k "down_blocks" then
      match (splitDot k).get? 1 with
      | none => .error (.indexError "list index out of range")
      | some seg =>
        match pyInt? seg with
        | some n => biggestDownBlock rest (if n > acc then n else acc)
        | none => biggestDownBlock rest acc
    else biggestDownBlock rest acc

/-- validate_hsxl_block_count: raise MotionCompatibilityError unless the
biggest down_block index found is exactly 2. -/
def validate_hsxl_block_count (mm_state_dict : StateDict) (mm_type : String) :
    Except PyError Unit :=
  match biggestDownBlock mm_state_dict 0 with
  | .error e => .error e
  | .ok biggest_block =>
    if biggest_block ≠ 2 then
      .error (.motionCompatibilityError
        ("Expected biggest down_block to be 2, but was " ++ toString biggest_block
          ++ " - " ++ mm_type ++ " is not a valid HotShotXL motion module!"))
    else .ok ()

/-- has_mid_block: true iff some key starts with "mid_block." and contains
"temporal". -/
def has_mid_block (mm_state_dict : StateDict) : Bool :=
  mm_state_dict.any (fun kv => strStartsWith kv.1 "mid_block." && strContainsSub kv.1 "temporal")

/-- BlockType from motion_utils (not under src/).  Modelled from the spec:
enumerated values DOWN, MID, UP determining the sub-module count per level. -/
inductive BlockType where
  | DOWN
  | MID
  | UP
deriving Repr, DecidableEq

/-- MotionLoRAInfo from motion_lora.py (not under src/).  Modelled from the
spec: an opaque LoRA descriptor; only list-membership and nullability of the
list matter to this file. -/
structure MotionLoRAInfo where
  name : String
deriving Repr, DecidableEq

/-- PositionalEncoding: holds a sinusoidal buffer registered under the name
positional_encoding with shape (1, max_length, dim); the numeric content of
the buffer is not needed by any claim, so only the sizing parameters are
kept. -/
structure PositionalEncoding where
  dim : Nat
  dropout_p : ℚ
  max_length : Nat
deriving Repr, DecidableEq

/-- PositionalEncoding.__init__(dim, dropout, max_length). -/
def PositionalEncoding.init (dim : Nat) (dropout : ℚ) (max_length : Nat) :
    PositionalEncoding :=
  { dim := dim, dropout_p := dropout, max_length := max_length }

/-- The shape of the registered positional_encoding buffer:
torch.zeros(1, max_length, dim). -/
def PositionalEncoding.buffer_shape (pe : PositionalEncoding) : List Nat :=
  [1, pe.max_length, pe.dim]

/-- TemporalAttention(CrossAttentionMM): the CrossAttentionMM base fields
(query_dim, context_dim, heads, dim_head, dropout and the optional explicit
scale, which motion_utils is not under src/ so is modelled from the spec as
defaulting to no override) plus the pos_encoder the subclass adds. -/
structure TemporalAttention where
  query_dim : Nat
  context_dim : Option Nat
  heads : Nat
  dim_head : Nat
  dropout_p : ℚ
  scale : Option ℚ
  pos_encoder : PositionalEncoding
deriving Repr, DecidableEq

/-- TemporalAttention.__init__: forwards the attention arguments to
CrossAttentionMM and builds a PositionalEncoding over query_dim with
dropout 0 and the given max_length. -/
def TemporalAttention.init (max_length query_dim : Nat) (context_dim : Option Nat)
    (heads dim_head : Nat) (dropout : ℚ) : TemporalAttention :=
  { query_dim := query_dim, context_dim := context_dim, heads := heads,
    dim_head := dim_head, dropout_p := dropout, scale := none,
    pos_encoder := PositionalEncoding.init query_dim 0 max_length }

/-- math.isclose with its default tolerances (rel_tol = 1e-9, abs_tol = 0.0),
over exact rationals:  abs(a-b) <= max(rel_tol * max(abs(a), abs(b)), abs_tol). -/
def isclose (a b : ℚ) : Bool :=
  |a - b| ≤ max ((1 / 1000000000) * max |a| |b|) 0

/-- TemporalAttention.set_scale_multiplier: None or a value isclose to 1.0
clears the explicit scale; any other value is stored as the scale. -/
def TemporalAttention.set_scale_multiplier (ta : TemporalAttention)
    (multiplier : Option ℚ) : TemporalAttention :=
  match multiplier with
  | none => { ta with scale := none }
  | some m => if isclose m 1 then { ta with scale := none } else { ta with scale := some m }

/-- TransformerBlock: depth pairs of (TemporalAttention, LayerNorm) plus a
FeedForward with its own LayerNorm.  LayerNorm and FeedForward are external
collaborators; only their dimension is recorded. -/
structure TransformerBlock where
  dim : Nat
  is_cross : Bool
  attention_blocks : List TemporalAttention
  norms : List Nat
  ff_dim : Nat
  ff_glu : Bool
  ff_norm : Nat
deriving Repr, DecidableEq

/-- TransformerBlock.__init__(dim, num_attention_heads, attention_head_dim,
dropout, activation_fn, attention_bias, upcast_attention, depth,
cross_attention_dim, max_length).  is_cross is fixed from whether
cross_attention_dim was supplied; each of the depth attention blocks gets
query_dim = dim and context_dim = cross_attention_dim. -/
def TransformerBlock.init (dim num_attention_heads attention_head_dim : Nat)
    (dropout : ℚ) (activation_fn : String) (_attention_bias _upcast_attention : Bool)
    (depth : Nat) (cross_attention_dim : Option Nat) (max_length : Nat) :
    TransformerBlock :=
  { dim := dim,
    is_cross := cross_attention_dim.isSome,
    attention_blocks := (List.range depth).map (fun _ =>
      TemporalAttention.init max_length dim cross_attention_dim
        num_attention_heads attention_head_dim dropout),
    norms := (List.range depth).map (fun _ => dim),
    ff_dim := dim,
    ff_glu := activation_fn = "geglu",
    ff_norm := dim }

/-- TransformerBlock.set_scale_multiplier: fan out to every attention block. -/
def TransformerBlock.set_scale_multiplier (tb : TransformerBlock)
    (multiplier : Option ℚ) : TransformerBlock :=
  { tb with attention_blocks :=
      tb.attention_blocks.map (fun b => b.set_scale_multiplier multiplier) }

/-- TransformerTemporal: group norm, proj_in, the TransformerBlock stack,
proj_out, plus the per-step temporal state of TemporalTransformerGeneric
(motion_utils, not under src/) whose temporal_transformer_init is modelled
from the spec: video and full length default to 8 frames, no scale mask, no
sub-indices. -/
structure TransformerTemporal where
  in_channels : Nat
  inner_dim : Nat
  norm_num_groups : Nat
  proj_in : Nat × Nat
  transformer_blocks : List TransformerBlock
  proj_out : Nat × Nat
  video_length : Nat
  full_length : Nat
  raw_scale_mask : Option Tensor
  scale_min : Option ℚ
  scale_max : Option ℚ
  sub_idxs : Option (List Nat)
deriving Repr, DecidableEq

/-- TransformerTemporal.__init__: inner_dim = num_attention_heads *
attention_head_dim, GroupNormAD over in_channels with norm_num_groups groups,
proj_in : in_channels -> inner_dim, num_layers TransformerBlocks of depth 2,
proj_out : inner_dim -> in_channels. -/
def TransformerTemporal.init (num_attention_heads attention_head_dim in_channels
    num_layers : Nat) (dropout : ℚ) (norm_num_groups : Nat)
    (cross_attention_dim : Option Nat) (attention_bias : Bool)
    (activation_fn : String) (upcast_attention : Bool) (max_length : Nat) :
    TransformerTemporal :=
  let inner_dim := num_attention_heads * attention_head_dim
  { in_channels := in_channels,
    inner_dim := inner_dim,
    norm_num_groups := norm_num_groups,
    proj_in := (in_channels, inner_dim),
    transformer_blocks := (List.range num_layers).map (fun _ =>
      TransformerBlock.init inner_dim num_attention_heads attention_head_dim
        dropout activation_fn attention_bias upcast_attention 2
        cross_attention_dim max_length),
    proj_out := (inner_dim, in_channels),
    video_length := 8,
    full_length := 8,
    raw_scale_mask := none,
    scale_min := none,
    scale_max := none,
    sub_idxs := none }

/-- TransformerTemporal.set_video_length. -/
def TransformerTemporal.set_video_length (tt : TransformerTemporal)
    (video_length full_length : Nat) : TransformerTemporal :=
  { tt with video_length := video_length, full_length := full_length }

/-- TransformerTemporal.set_scale_multiplier: fan out to every block. -/
def TransformerTemporal.set_scale_multiplier (tt : TransformerTemporal)
    (multiplier : Option ℚ) : TransformerTemporal :=
  { tt with transformer_blocks :=
      tt.transformer_blocks.map (fun b => b.set_scale_multiplier multiplier) }

/-- TransformerTemporal.set_masks. -/
def TransformerTemporal.set_masks (tt : TransformerTemporal) (masks : Tensor)
    (min_val max_val : ℚ) : TransformerTemporal :=
  { tt with
    scale_min := some min_val,
    scale_max := some max_val,
    raw_scale_mask := some masks }

/-- TransformerTemporal.set_sub_idxs. -/
def TransformerTemporal.set_sub_idxs (tt : TransformerTemporal)
    (sub_idxs : Option (List Nat)) : TransformerTemporal :=
  { tt with sub_idxs := sub_idxs }

/-- Modelled from the spec: reset_temp_vars (inherited from
TemporalTransformerGeneric in motion_utils, not under src/) resets the
per-step temporal state to the construction defaults (default video length 8,
no mask, no sub-indices). -/
def TransformerTemporal.reset_temp_vars (tt : TransformerTemporal) :
    TransformerTemporal :=
  { tt with
    video_length := 8,
    full_length := 8,
    raw_scale_mask := none,
    scale_min := none,
    scale_max := none,
    sub_idxs := none }

/-- get_transformer_temporal: 8 attention heads, head dim in_channels // 8. -/
def get_transformer_temporal (in_channels max_length : Nat) : TransformerTemporal :=
  TransformerTemporal.init 8 (in_channels / 8) in_channels 1 0 32 none false
    "geglu" false max_length

/-- HotShotXLMotionModule: a list of TransformerTemporal children named
temporal_attentions; it has no state of its own. -/
structure HotShotXLMotionModule where
  temporal_attentions : List TransformerTemporal
deriving Repr, DecidableEq

/-- HotShotXLMotionModule.__init__(in_channels, block_type, max_length):
one TransformerTemporal for MID, two for DOWN, three for UP. -/
def HotShotXLMotionModule.init (in_channels : Nat) (block_type : BlockType)
    (max_length : Nat) : HotShotXLMotionModule :=
  if block_type = BlockType.MID then
    { temporal_attentions := [get_transformer_temporal in_channels max_length] }
  else
    let base := [get_transformer_temporal in_channels max_length,
                 get_transformer_temporal in_channels max_length]
    if block_type = BlockType.UP then
      { temporal_attentions := base ++ [get_transformer_temporal in_channels max_length] }
    else
      { temporal_attentions := base }

/-- HotShotXLMotionModule.set_video_length. -/
def HotShotXLMotionModule.set_video_length (m : HotShotXLMotionModule)
    (video_length full_length : Nat) : HotShotXLMotionModule :=
  { temporal_attentions :=
      m.temporal_attentions.map (fun tt => tt.set_video_length video_length full_length) }

/-- HotShotXLMotionModule.set_scale_multiplier. -/
def HotShotXLMotionModule.set_scale_multiplier (m : HotShotXLMotionModule)
    (multiplier : Option ℚ) : HotShotXLMotionModule :=
  { temporal_attentions :=
      m.temporal_attentions.map (fun tt => tt.set_scale_multiplier multiplier) }

/-- HotShotXLMotionModule.set_masks. -/
def HotShotXLMotionModule.set_masks (m : HotShotXLMotionModule) (masks : Tensor)
    (min_val max_val : ℚ) : HotShotXLMotionModule :=
  { temporal_attentions :=
      m.temporal_attentions.map (fun tt => tt.set_masks masks min_val max_val) }

/-- HotShotXLMotionModule.set_sub_idxs. -/
def HotShotXLMotionModule.set_sub_idxs (m : HotShotXLMotionModule)
    (sub_idxs : Option (List Nat)) : HotShotXLMotionModule :=
  { temporal_attentions :=
      m.temporal_attentions.map (fun tt => tt.set_sub_idxs sub_idxs) }

/-- HotShotXLMotionModule.reset_temp_vars. -/
def HotShotXLMotionModule.reset_temp_vars (m : HotShotXLMotionModule) :
    HotShotXLMotionModule :=
  { temporal_attentions := m.temporal_attentions.map (fun tt => tt.reset_temp_vars) }

/-- HotShotXLMotionWrapper: the top-level container.  mm_hash, mm_name and
loras are first set by the GenericMotionWrapper base constructor (external)
and re-assigned at the end of __init__ with the same values. -/
structure HotShotXLMotionWrapper where
  down_blocks : List HotShotXLMotionModule
  up_blocks : List HotShotXLMotionModule
  mid_block : Option HotShotXLMotionModule
  encoding_max_len : Nat
  mm_hash : String
  mm_name : String
  version : String
  injector_version : String
  AD_video_length : Nat
  loras : Option (List MotionLoRAInfo)
deriving Repr, DecidableEq

/-- Modelled from the spec: InjectorVersion.HOTSHOTXL_V1 from motion_utils
(not under src/), an identifying constant. -/
def InjectorVersion.HOTSHOTXL_V1 : String := "HotShotXL v1"

/-- The record the successful branch of HotShotXLMotionWrapper.__init__
builds: three down modules at widths (320, 640, 1280), three up modules at
(1280, 640, 320), the given mid module, and version "HSXL v1" when mid_block
is None else "HSXL v2". -/
def buildWrapper (encoding_max_len : Nat) (mid_block : Option HotShotXLMotionModule)
    (mm_hash mm_name : String) (loras : Option (List MotionLoRAInfo)) :
    HotShotXLMotionWrapper :=
  { down_blocks := [320, 640, 1280].map (fun c =>
      HotShotXLMotionModule.init c BlockType.DOWN encoding_max_len),
    up_blocks := [1280, 640, 320].map (fun c =>
      HotShotXLMotionModule.init c BlockType.UP encoding_max_len),
    mid_block := mid_block,
    encoding_max_len := encoding_max_len,
    mm_hash := mm_hash,
    mm_name := mm_name,
    version := if mid_block.isNone then "HSXL v1" else "HSXL v2",
    injector_version := InjectorVersion.HOTSHOTXL_V1,
    AD_video_length := 8,
    loras := loras }

/-- The observable construction-time events of
HotShotXLMotionWrapper.__init__, in execution order. -/
inductive InitEvent where
  | validateMaxLen
  | validateBlockCount
  | buildModule (block_type : BlockType) (in_channels : Nat)
  | checkMidBlock
  | raiseTypeError
deriving Repr, DecidableEq

/-- Whether an init event is the construction of a HotShotXLMotionModule. -/
def InitEvent.isBuild : InitEvent → Bool
  | .buildModule _ _ => true
  | _ => false

/-- HotShotXLMotionWrapper.__init__, instrumented with its event trace.
The source order is: derive encoding_max_len, validate the down_block count,
build the three down modules, build the three up modules, then check
has_mid_block; when it holds, the source calls
HotShotXLMotionModule(1280, BlockType=BlockType.MID, max_length=...), and
`BlockType` is not a parameter name of HotShotXLMotionModule.__init__ (the
parameter is `block_type`), so that call raises TypeError and construction
aborts before any mid module exists. -/
def HotShotXLMotionWrapper.initCore (mm_state_dict : StateDict)
    (mm_hash mm_name : String) (loras : Option (List MotionLoRAInfo)) :
    List InitEvent × Except PyError HotShotXLMotionWrapper :=
  match get_hsxl_temporal_position_encoding_max_len mm_state_dict mm_name with
  | .error e => ([.validateMaxLen], .error e)
  | .ok encoding_max_len =>
    match validate_hsxl_block_count mm_state_dict mm_name with
    | .error e => ([.validateMaxLen, .validateBlockCount], .error e)
    | .ok _ =>
      let events := [InitEvent.validateMaxLen, InitEvent.validateBlockCount]
        ++ [320, 640, 1280].map (InitEvent.buildModule BlockType.DOWN)
        ++ [1280, 640, 320].map (InitEvent.buildModule BlockType.UP)
        ++ [InitEvent.checkMidBlock]
      if has_mid_block mm_state_dict then
        (events ++ [InitEvent.raiseTypeError],
         .error (.typeError
           "HotShotXLMotionModule.__init__ got an unexpected keyword argument BlockType"))
      else
        (events, .ok (buildWrapper encoding_max_len none mm_hash mm_name loras))

/-- HotShotXLMotionWrapper(mm_state_dict, mm_hash, mm_name, loras): the
construction result. -/
def HotShotXLMotionWrapper.init (mm_state_dict : StateDict)
    (mm_hash mm_name : String) (loras : Option (List MotionLoRAInfo)) :
    Except PyError HotShotXLMotionWrapper :=
  (HotShotXLMotionWrapper.initCore mm_state_dict mm_hash mm_name loras).2

/-- The event trace of HotShotXLMotionWrapper.__init__. -/
def initTrace (mm_state_dict : StateDict) (mm_hash mm_name : String)
    (loras : Option (List MotionLoRAInfo)) : List InitEvent :=
  (HotShotXLMotionWrapper.initCore mm_state_dict mm_hash mm_name loras).1

/-- HotShotXLMotionWrapper.has_loras: `return self.loras is not None`. -/
def HotShotXLMotionWrapper.has_loras (w : HotShotXLMotionWrapper) : Bool :=
  w.loras.isSome

/-- HotShotXLMotionWrapper.set_video_length: also records AD_video_length,
then fans out down -> up -> mid. -/
def HotShotXLMotionWrapper.set_video_length (w : HotShotXLMotionWrapper)
    (video_length full_length : Nat) : HotShotXLMotionWrapper :=
  { w with
    AD_video_length := video_length,
    down_blocks := w.down_blocks.map (fun b => b.set_video_length video_length full_length),
    up_blocks := w.up_blocks.map (fun b => b.set_video_length video_length full_length),
    mid_block := w.mid_block.map (fun b => b.set_video_length video_length full_length) }

/-- HotShotXLMotionWrapper.set_scale_multiplier. -/
def HotShotXLMotionWrapper.set_scale_multiplier (w : HotShotXLMotionWrapper)
    (multiplier : Option ℚ) : HotShotXLMotionWrapper :=
  { w with
    down_blocks := w.down_blocks.map (fun b => b.set_scale_multiplier multiplier),
    up_blocks := w.up_blocks.map (fun b => b.set_scale_multiplier multiplier),
    mid_block := w.mid_block.map (fun b => b.set_scale_multiplier multiplier) }

/-- HotShotXLMotionWrapper.set_masks. -/
def HotShotXLMotionWrapper.set_masks (w : HotShotXLMotionWrapper) (masks : Tensor)
    (min_val max_val : ℚ) : HotShotXLMotionWrapper :=
  { w with
    down_blocks := w.down_blocks.map (fun b => b.set_masks masks min_val max_val),
    up_blocks := w.up_blocks.map (fun b => b.set_masks masks min_val max_val),
    mid_block := w.mid_block.map (fun b => b.set_masks masks min_val max_val) }

/-- HotShotXLMotionWrapper.set_sub_idxs. -/
def HotShotXLMotionWrapper.set_sub_idxs (w : HotShotXLMotionWrapper)
    (sub_idxs : Option (List Nat)) : HotShotXLMotionWrapper :=
  { w with
    down_blocks := w.down_blocks.map (fun b => b.set_sub_idxs sub_idxs),
    up_blocks := w.up_blocks.map (fun b => b.set_sub_idxs sub_idxs),
    mid_block := w.mid_block.map (fun b => b.set_sub_idxs sub_idxs) }

/-- HotShotXLMotionWrapper.reset_temp_vars. -/
def HotShotXLMotionWrapper.reset_temp_vars (w : HotShotXLMotionWrapper) :
    HotShotXLMotionWrapper :=
  { w with
    down_blocks := w.down_blocks.map (fun b => b.reset_temp_vars),
    up_blocks := w.up_blocks.map (fun b => b.reset_temp_vars),
    mid_block := w.mid_block.map (fun b => b.reset_temp_vars) }

/-- The max_length parameters of all PositionalEncoding buffers under a
TransformerBlock. -/
def TransformerBlock.posEncMaxLens (tb : TransformerBlock) : List Nat :=
  tb.attention_blocks.map (fun ta => ta.pos_encoder.max_length)

/-- The max_length parameters of all PositionalEncoding buffers under a
TransformerTemporal. -/
def TransformerTemporal.posEncMaxLens (tt : TransformerTemporal) : List Nat :=
  tt.transformer_blocks.flatMap (fun tb => tb.posEncMaxLens)

/-- The max_length parameters of all PositionalEncoding buffers under a
HotShotXLMotionModule. -/
def HotShotXLMotionModule.posEncMaxLens (m : HotShotXLMotionModule) : List Nat :=
  m.temporal_attentions.flatMap (fun tt => tt.posEncMaxLens)

/-- The max_length parameters of all PositionalEncoding buffers in the whole
wrapper tree, down then up then mid. -/
def HotShotXLMotionWrapper.posEncMaxLens (w : HotShotXLMotionWrapper) : List Nat :=
  w.down_blocks.flatMap (fun m => m.posEncMaxLens)
    ++ w.up_blocks.flatMap (fun m => m.posEncMaxLens)
    ++ (match w.mid_block with
        | some m => m.posEncMaxLens
        | none => [])

/-- torch broadcasting of a single dimension pair: equal sizes broadcast to
themselves, a size of 1 stretches to the other size. -/
def broadcastDim (a b : Nat) : Option Nat :=
  if a = b then some a
  else if a = 1 then some b
  else if b = 1 then some a
  else none

/-- torch broadcasting over reversed (right-aligned) shape lists; a missing
leading dimension is treated as present. -/
def broadcastRev : List Nat → List Nat → Option (List Nat)
  | [], ys => some ys
  | xs, [] => some xs
  | x :: xs, y :: ys =>
    match broadcastDim x y, broadcastRev xs ys with
    | some d, some rest => some (d :: rest)
    | _, _ => none

/-- torch broadcasting of two shapes (right-aligned). -/
def broadcastShapes (s1 s2 : List Nat) : Option (List Nat) :=
  (broadcastRev s1.reverse s2.reverse).map List.reverse

/-- Shape action of the einops rearranges in TemporalAttention.forward.
Both "(b f) s c -> (b s) f c" (with f = number_of_frames) and
"(b s) f c -> (b f) s c" (with s = sequence_length) split the leading axis
by a known group size g and swap the group with the middle axis:
[d0, d1, d2] becomes [d0 / g * d1, g, d2], and einops fails unless the input
has exactly three axes and g divides the leading one. -/
def rearrangeSwap (g : Nat) (shape : List Nat) : Except PyError (List Nat) :=
  match shape with
  | [d0, d1, d2] =>
    if g ≠ 0 ∧ g ∣ d0 then .ok [d0 / g * d1, g, d2]
    else .error (.runtimeError "einops rearrange: axis length not divisible by group")
  | _ => .error (.runtimeError "einops rearrange: expected 3 axes")

/-- PositionalEncoding.forward(hidden_states, length): adds
positional_encoding[:, :length] (shape (1, min length max_length, dim)) to
the input under torch broadcasting; the dropout layer preserves shape. -/
def PositionalEncoding.forward (pe : PositionalEncoding) (shape : List Nat)
    (length : Nat) : Except PyError (List Nat) :=
  match broadcastShapes shape [1, min length pe.max_length, pe.dim] with
  | some s => .ok s
  | none => .error (.runtimeError "tensor add: shapes are not broadcastable")

/-- The guard `if encoder_hidden_states:` in TemporalAttention.forward,
followed by the einops repeat "b n c -> (b s) n c" with s = sequence_length.
Python truthiness of a Tensor raises for any tensor of other than one
element; for a one-element tensor it depends on the stored value, which a
shape-level model does not see, so the nonzero case (branch taken) is used.
A None context skips the branch.  The Bool records whether the repetition
branch ran. -/
def truthyContext (sequence_length : Nat) :
    Option (List Nat) → Except PyError (Option (List Nat) × Bool)
  | none => .ok (none, false)
  | some cs =>
    if cs.prod = 1 then
      match cs with
      | [b, n, c] => .ok (some [b * sequence_length, n, c], true)
      | _ => .error (.runtimeError "einops repeat: expected 3 axes")
    else .error (.runtimeError "Boolean value of Tensor with more than one element is ambiguous")

/-- Modelled from the spec: the generic attention capability
(CrossAttentionMM.forward from motion_utils, not under src/) accepts the
query tensor, an optional context, a mask and a scale mask, and returns a
tensor of the same shape as the query. -/
def CrossAttentionMM.forward (hidden : List Nat) (_context : Option (List Nat))
    (_mask _scale_mask : Option (List Nat)) : List Nat :=
  hidden

/-- TemporalAttention.forward at the shape level.  sequence_length is
hidden_states.shape[1]; the input is regrouped so attention runs across
frames at each spatial position, positional encoding for number_of_frames
positions is added, the wrapped attention is applied, and the grouping is
undone.  The Bool beside the result records whether the context-repetition
branch ran (also when a later step raises). -/
def TemporalAttention.forward (ta : TemporalAttention) (hidden : List Nat)
    (encoder_hidden_states _attention_mask : Option (List Nat))
    (number_of_frames : Nat) (_scale_mask : Option (List Nat)) :
    Except PyError (List Nat) × Bool :=
  match hidden.get? 1 with
  | none => (.error (.indexError "tuple index out of range"), false)
  | some sequence_length =>
    match rearrangeSwap number_of_frames hidden with
    | .error e => (.error e, false)
    | .ok h1 =>
      match ta.pos_encoder.forward h1 number_of_frames with
      | .error e => (.error e, false)
      | .ok h2 =>
        match truthyContext sequence_length encoder_hidden_states with
        | .error e => (.error e, false)
        | .ok (ctx, branchTaken) =>
          match rearrangeSwap sequence_length
              (CrossAttentionMM.forward h2 ctx _attention_mask _scale_mask) with
          | .error e => (.error e, branchTaken)
          | .ok h4 => (.ok h4, branchTaken)

/-- The attention loop of TransformerBlock.forward: for each
(attention block, norm) pair, normalize (LayerNorm preserves shape), apply
the attention block and add the residual (a torch broadcasting add).  The
Bool accumulates whether any context-repetition branch ran. -/
def attnFold (blocks : List TemporalAttention) (ehs am : Option (List Nat))
    (number_of_frames : Nat) (sm : Option (List Nat)) (hidden : List Nat)
    (flag : Bool) : Except PyError (List Nat) × Bool :=
  match blocks with
  | [] => (.ok hidden, flag)
  | blk :: rest =>
    match blk.forward hidden ehs am number_of_frames sm with
    | (.error e, f1) => (.error e, flag || f1)
    | (.ok out, f1) =>
      match broadcastShapes out hidden with
      | none => (.error (.runtimeError "residual add: shapes are not broadcastable"), flag || f1)
      | some h2 => attnFold rest ehs am number_of_frames sm h2 (flag || f1)

/-- TransformerBlock.forward at the shape level: when the block is not
cross-attentive the encoder context is nulled before the attention loop;
afterwards the feed-forward sub-layer and its residual preserve shape. -/
def TransformerBlock.forward (tb : TransformerBlock) (hidden : List Nat)
    (encoder_hidden_states attention_mask : Option (List Nat))
    (number_of_frames : Nat) (scale_mask : Option (List Nat)) :
    Except PyError (List Nat) × Bool :=
  let ehs := if tb.is_cross then encoder_hidden_states else none
  attnFold tb.attention_blocks ehs attention_mask number_of_frames scale_mask hidden false

/-- The transformer-block loop of TransformerTemporal.forward. -/
def blocksFold (blocks : List TransformerBlock) (ehs am : Option (List Nat))
    (number_of_frames : Nat) (sm : Option (List Nat)) (hidden : List Nat)
    (flag : Bool) : Except PyError (List Nat) × Bool :=
  match blocks with
  | [] => (.ok hidden, flag)
  | b :: rest =>
    match b.forward hidden ehs am number_of_frames sm with
    | (.error e, f1) => (.error e, flag || f1)
    | (.ok h2, f1) => blocksFold rest ehs am number_of_frames sm h2 (flag || f1)

/-- Shape action of nn.Linear(in_features, out_features): the last dimension
must equal in_features and becomes out_features. -/
def linearForward (in_features out_features : Nat) (shape : List Nat) :
    Except PyError (List Nat) :=
  if shape.getLast? = some in_features then .ok (shape.dropLast ++ [out_features])
  else .error (.runtimeError "linear: input features mismatch")

/-- Modelled from the spec: get_scale_mask (inherited from
TemporalTransformerGeneric in motion_utils, not under src/) returns None
when no raw mask is stored, and otherwise a tensor derived from the stored
mask (selected by the stored sub-indices and clamped into the stored
bounds); only its optionality matters at the shape level. -/
def TransformerTemporal.get_scale_mask (tt : TransformerTemporal)
    (_hidden : List Nat) : Option (List Nat) :=
  tt.raw_scale_mask.map (fun t => t.shape)

/-- TransformerTemporal.forward at the shape level.  The input must unpack
as (batch, channel, height, width); the local inner_dim read from
hidden_states.shape[1] is the channel count; GroupNormAD (external)
preserves shape; the permute/reshape flattens the spatial dimensions; after
proj_in, the transformer blocks and proj_out, the tensor is reshaped back
(the element count must match) and the original input added as a residual. -/
def TransformerTemporal.forward (tt : TransformerTemporal) (hidden : List Nat)
    (encoder_hidden_states attention_mask : Option (List Nat)) :
    Except PyError (List Nat) × Bool :=
  match hidden with
  | [batch, channel, height, width] =>
    let residual := [batch, channel, height, width]
    let scale_mask := tt.get_scale_mask hidden
    let inner_dim := channel
    let h1 := [batch, height * width, inner_dim]
    match linearForward tt.proj_in.1 tt.proj_in.2 h1 with
    | .error e => (.error e, false)
    | .ok h2 =>
      match blocksFold tt.transformer_blocks encoder_hidden_states attention_mask
          tt.video_length scale_mask h2 false with
      | (.error e, flag) => (.error e, flag)
      | (.ok h3, flag) =>
        match linearForward tt.proj_out.1 tt.proj_out.2 h3 with
        | .error e => (.error e, flag)
        | .ok h4 =>
          if h4.prod = batch * height * width * inner_dim then
            match broadcastShapes [batch, inner_dim, height, width] residual with
            | some out => (.ok out, flag)
            | none => (.error (.runtimeError "tensor add: shapes are not broadcastable"), flag)
          else (.error (.runtimeError "reshape: invalid element count"), flag)
  | _ => (.error (.valueError "not enough values to unpack"), false)

/-- Whether a TransformerTemporal.forward call ran the context-repetition
branch of some TemporalAttention it contains. -/
def ctxBranchTaken (tt : TransformerTemporal) (hidden : List Nat)
    (ehs am : Option (List Nat)) : Bool :=
  (tt.forward hidden ehs am).2

theorem broadcastDim_self (a : Nat) : broadcastDim a a = some a := by
  simp [broadcastDim]

theorem broadcastDim_one_right (a : Nat) : broadcastDim a 1 = some a := by
  rcases eq_or_ne a 1 with h | h <;> simp [broadcastDim, h]

theorem broadcastRev_self (l : List Nat) : broadcastRev l l = some l := by
  induction l with
  | nil => rfl
  | cons x xs ih => simp [broadcastRev, broadcastDim_self, ih]

theorem broadcastShapes_self (l : List Nat) : broadcastShapes l l = some l := by
  simp [broadcastShapes, broadcastRev_self]

theorem broadcastShapes_one_left (a x y : Nat) :
    broadcastShapes [a, x, y] [1, x, y] = some [a, x, y] := by
  simp [broadcastShapes, broadcastRev, broadcastDim_self, broadcastDim_one_right]

theorem linearForward_three (a b x y z : Nat) :
    linearForward a b [x, y, z]
      = if z = a then .ok [x, y, b]
        else .error (.runtimeError "linear: input features mismatch") := by
  by_cases h : z = a <;> simp [linearForward, List.getLast?, List.dropLast, h]

/-- A TemporalAttention whose positional encoder matches the channel width
and can hold the frame count maps a well-formed (batch*frames, positions,
channels) shape to itself without running the context-repetition branch. -/
theorem temporalAttention_forward_eval (ta : TemporalAttention) (B s c f : Nat)
    (am sm : Option (List Nat))
    (hf : f ≠ 0) (hdvd : f ∣ B) (hs : s ≠ 0)
    (hfl : f ≤ ta.pos_encoder.max_length) (hdim : ta.pos_encoder.dim = c) :
    ta.forward [B, s, c] none am f sm = (.ok [B, s, c], false) := by
  have h1 : rearrangeSwap f [B, s, c] = .ok [B / f * s, f, c] := by
    simp [rearrangeSwap, hf, hdvd]
  have h2 : ta.pos_encoder.forward [B / f * s, f, c] f = .ok [B / f * s, f, c] := by
    simp [PositionalEncoding.forward, Nat.min_eq_left hfl, hdim, broadcastShapes_one_left]
  have h3 : rearrangeSwap s [B / f * s, f, c] = .ok [B, s, c] := by
    have hdvd2 : s ∣ B / f * s := Dvd.intro_left _ rfl
    have e1 : B / f * s / s * f = B := by
      rw [Nat.mul_div_cancel _ (Nat.pos_of_ne_zero hs), Nat.div_mul_cancel hdvd]
    simp [rearrangeSwap, hs, hdvd2, e1, Nat.div_mul_cancel hdvd]
  simp [TemporalAttention.forward, h1, h2, h3, truthyContext, CrossAttentionMM.forward]

/-- The attention loop preserves a well-formed shape and never runs the
context-repetition branch when every attention block is suitably sized and
the context is None. -/
theorem attnFold_eval (blocks : List TemporalAttention) (am sm : Option (List Nat))
    (B s c f : Nat) (hf : f ≠ 0) (hdvd : f ∣ B) (hs : s ≠ 0)
    (hblocks : ∀ ta ∈ blocks, f ≤ ta.pos_encoder.max_length ∧ ta.pos_encoder.dim = c) :
    attnFold blocks none am f sm [B, s, c] false = (.ok [B, s, c], false) := by
  induction blocks with
  | nil => rfl
  | cons blk rest ih =>
    have hb := hblocks blk (by simp)
    rw [attnFold, temporalAttention_forward_eval blk B s c f am sm hf hdvd hs hb.1 hb.2]
    simp only [broadcastShapes_self, Bool.false_or]
    exact ih (fun ta hta => hblocks ta (by simp [hta]))

/-- A non-cross TransformerBlock with suitably sized attention blocks
preserves a well-formed shape, for any supplied context. -/
theorem transformerBlock_forward_eval (tb : TransformerBlock)
    (ehs am sm : Option (List Nat)) (B s c f : Nat)
    (hcross : tb.is_cross = false)
    (hblocks : ∀ ta ∈ tb.attention_blocks, f ≤ ta.pos_encoder.max_length ∧ ta.pos_encoder.dim = c)
    (hf : f ≠ 0) (hdvd : f ∣ B) (hs : s ≠ 0) :
    tb.forward [B, s, c] ehs am f sm = (.ok [B, s, c], false) := by
  simp only [TransformerBlock.forward, hcross, Bool.false_eq_true, if_false]
  exact attnFold_eval tb.attention_blocks am sm B s c f hf hdvd hs hblocks

/-- The transformer-block loop preserves a well-formed shape across a list
of non-cross blocks. -/
theorem blocksFold_eval (blocks : List TransformerBlock) (ehs am sm : Option (List Nat))
    (B s c f : Nat) (hf : f ≠ 0) (hdvd : f ∣ B) (hs : s ≠ 0)
    (hblocks : ∀ tb ∈ blocks, tb.is_cross = false ∧
      ∀ ta ∈ tb.attention_blocks, f ≤ ta.pos_encoder.max_length ∧ ta.pos_encoder.dim = c) :
    blocksFold blocks ehs am f sm [B, s, c] false = (.ok [B, s, c], false) := by
  induction blocks with
  | nil => rfl
  | cons tb rest ih =>
    have hb := hblocks tb (by simp)
    rw [blocksFold, transformerBlock_forward_eval tb ehs am sm B s c f hb.1 hb.2 hf hdvd hs]
    simp only [Bool.false_or]
    exact ih (fun b hb2 => hblocks b (by simp [hb2]))

/-- TransformerTemporal.forward maps (B, C, H, W) to itself whenever the
projections agree with the channel width, every block is non-cross and
suitably sized, the configured video length is nonzero, divides the batch
and fits the positional encoders, and the spatial extent is nonzero. -/
theorem transformerTemporal_forward_eval (tt : TransformerTemporal) (B H W f c i : Nat)
    (ehs am : Option (List Nat))
    (hproj1 : tt.proj_in = (c, i)) (hproj2 : tt.proj_out = (i, c))
    (hvl : tt.video_length = f) (hmask : tt.raw_scale_mask = none)
    (hblocks : ∀ tb ∈ tt.transformer_blocks, tb.is_cross = false ∧
      ∀ ta ∈ tb.attention_blocks, f ≤ ta.pos_encoder.max_length ∧ ta.pos_encoder.dim = i)
    (hf : f ≠ 0) (hdvd : f ∣ B) (hH : H ≠ 0) (hW : W ≠ 0) :
    tt.forward [B, c, H, W] ehs am = (.ok [B, c, H, W], false) := by
  have hs : H * W ≠ 0 := Nat.mul_ne_zero hH hW
  have h1 : linearForward c i [B, H * W, c] = .ok [B, H * W, i] := by
    simp [linearForward_three]
  have h2 := blocksFold_eval tt.transformer_blocks ehs am none B (H * W) i f hf hdvd hs hblocks
  have h3 : linearForward i c [B, H * W, i] = .ok [B, H * W, c] := by
    simp [linearForward_three]
  have hprod : ([B, H * W, c] : List Nat).prod = B * H * W * c := by
    simp [mul_assoc]
  simp [TransformerTemporal.forward, TransformerTemporal.get_scale_mask, hmask,
    hproj1, hproj2, hvl, h1, h2, h3, hprod, broadcastShapes_self]

/-- C3: for every 4D input of shape (B, C, H, W) whose channel count matches
the configured width, TransformerTemporal.forward (as built by
get_transformer_temporal, for any configured video length f that is nonzero,
divides the batch and fits the positional-encoding table, and any nonzero
spatial extent) returns a tensor of exactly the shape (B, C, H, W). -/
theorem c3_transformer_temporal_forward_preserves_shape
    (c len B H W f fl : Nat) (ehs am : Option (List Nat))
    (hf : f ≠ 0) (hdvd : f ∣ B) (hH : H ≠ 0) (hW : W ≠ 0) (hflen : f ≤ len) :
    ((get_transformer_temporal c len).set_video_length f fl).forward [B, c, H, W] ehs am
      = (.ok [B, c, H, W], false) := by
  apply transformerTemporal_forward_eval _ B H W f c (8 * (c / 8)) ehs am rfl rfl rfl rfl _ hf hdvd hH hW
  intro tb htb
  simp only [TransformerTemporal.set_video_length, get_transformer_temporal,
    TransformerTemporal.init] at htb
  obtain ⟨j, _, rfl⟩ := List.mem_map.mp htb
  refine ⟨rfl, ?_⟩
  intro ta hta
  simp only [TransformerBlock.init, List.mem_map] at hta
  obtain ⟨j, _, rfl⟩ := hta
  exact ⟨hflen, rfl⟩

/-- C3 witness: a concrete successful call with every hypothesis discharged. -/
theorem c3_witness :
    (8 ≠ 0 ∧ (8 : Nat) ∣ 8 ∧ 2 ≠ 0 ∧ 3 ≠ 0 ∧ 8 ≤ 24) ∧
    ((get_transformer_temporal 320 24).set_video_length 8 16).forward [8, 320, 2, 3] none none
      = (.ok [8, 320, 2, 3], false) :=
  ⟨by decide,
   c3_transformer_temporal_forward_preserves_shape 320 24 8 2 3 8 16 none none
     (by decide) (by decide) (by decide) (by decide) (by decide)⟩

/-- A TemporalAttention call with a None context never runs the
context-repetition branch, whatever else happens. -/
theorem TemporalAttention.forward_flag_none (ta : TemporalAttention) (h : List Nat)
    (am sm : Option (List Nat)) (f : Nat) :
    (ta.forward h none am f sm).2 = false := by
  cases hg : h[1]? with
  | none => simp [TemporalAttention.forward, hg]
  | some s =>
    cases hr : rearrangeSwap f h with
    | error e => simp [TemporalAttention.forward, hg, hr]
    | ok h1 =>
      cases hp : ta.pos_encoder.forward h1 f with
      | error e => simp [TemporalAttention.forward, hg, hr, hp]
      | ok h2 =>
        cases hr2 : rearrangeSwap s (CrossAttentionMM.forward h2 none am sm) with
        | error e => simp [TemporalAttention.forward, hg, hr, hp, hr2, truthyContext]
        | ok h4 => simp [TemporalAttention.forward, hg, hr, hp, hr2, truthyContext]

/-- The attention loop with a None context never reports the
context-repetition branch. -/
theorem attnFold_flag_none (blocks : List TemporalAttention) (am sm : Option (List Nat))
    (f : Nat) (h : List Nat) :
    (attnFold blocks none am f sm h false).2 = false := by
  induction blocks generalizing h with
  | nil => rfl
  | cons blk rest ih =>
    rw [attnFold]
    have hfl := TemporalAttention.forward_flag_none blk h am sm f
    rcases hb : blk.forward h none am f sm with ⟨res, fl⟩
    rw [hb] at hfl
    simp only at hfl
    subst hfl
    cases res with
    | error e => simp
    | ok out =>
      cases hbr : broadcastShapes out h with
      | none => simp [hbr]
      | some h2 => simp [hbr, ih]

/-- A non-cross TransformerBlock nulls the encoder context, so no attention
call inside it can run the context-repetition branch. -/
theorem transformerBlock_forward_flag (tb : TransformerBlock) (h : List Nat)
    (ehs am sm : Option (List Nat)) (f : Nat) (hcross : tb.is_cross = false) :
    (tb.forward h ehs am f sm).2 = false := by
  simp [TransformerBlock.forward, hcross, attnFold_flag_none]

/-- The transformer-block loop over non-cross blocks never reports the
context-repetition branch. -/
theorem blocksFold_flag (blocks : List TransformerBlock) (ehs am sm : Option (List Nat))
    (f : Nat) (h : List Nat)
    (hcross : ∀ tb ∈ blocks, tb.is_cross = false) :
    (blocksFold blocks ehs am f sm h false).2 = false := by
  induction blocks generalizing h with
  | nil => rfl
  | cons b rest ih =>
    rw [blocksFold]
    have hb1 := transformerBlock_forward_flag b h ehs am sm f (hcross b (by simp))
    rcases hb : b.forward h ehs am f sm with ⟨res, fl⟩
    rw [hb] at hb1
    simp only at hb1
    subst hb1
    cases res with
    | error e => simp
    | ok h2 => simp [ih h2 (fun tb htb => hcross tb (by simp [htb]))]

/-- A TransformerTemporal all of whose blocks are non-cross never reports
the context-repetition branch, on any input and any supplied context. -/
theorem transformerTemporal_forward_flag (tt : TransformerTemporal) (hidden : List Nat)
    (ehs am : Option (List Nat))
    (hcross : ∀ tb ∈ tt.transformer_blocks, tb.is_cross = false) :
    (tt.forward hidden ehs am).2 = false :=
  match hidden with
  | [] => rfl
  | [_] => rfl
  | [_, _] => rfl
  | [_, _, _] => rfl
  | _ :: _ :: _ :: _ :: _ :: _ => rfl
  | [batch, channel, height, width] => by
    simp only [TransformerTemporal.forward]
    split
    · rfl
    next h2 hli =>
      have hb := blocksFold_flag tt.transformer_blocks ehs am
        (tt.get_scale_mask [batch, channel, height, width]) tt.video_length h2 hcross
      split
      next e flag heq =>
        rw [heq] at hb
        simpa using hb
      next h3 flag heq =>
        rw [heq] at hb
        simp only at hb
        subst hb
        split
        · rfl
        next h4 hlo =>
          split
          · split <;> rfl
          · rfl

/-- Every TransformerBlock built by get_transformer_temporal is constructed
without a cross-attention dimension, hence is not cross-attentive. -/
theorem get_transformer_temporal_not_cross (c len : Nat) :
    ∀ tb ∈ (get_transformer_temporal c len).transformer_blocks, tb.is_cross = false := by
  intro tb htb
  simp only [get_transformer_temporal, TransformerTemporal.init] at htb
  obtain ⟨j, _, rfl⟩ := List.mem_map.mp htb
  rfl

/-- C10: every TransformerBlock of a TransformerTemporal built in this
module is non-cross (no cross-attention dimension is ever supplied), and
therefore no forward call made through TransformerTemporal — with any
input, any encoder context and any configured video length — ever runs the
context-repetition branch of TemporalAttention.forward. -/
theorem c10_context_repetition_branch_unreachable (c len f fl : Nat)
    (hidden : List Nat) (ehs am : Option (List Nat)) :
    ((get_transformer_temporal c len).transformer_blocks.all (fun tb => !tb.is_cross) = true) ∧
    ctxBranchTaken (get_transformer_temporal c len) hidden ehs am = false ∧
    ctxBranchTaken ((get_transformer_temporal c len).set_video_length f fl) hidden ehs am = false := by
  refine ⟨?_, ?_, ?_⟩
  · rw [List.all_eq_true]
    intro tb htb
    simp [get_transformer_temporal_not_cross c len tb htb]
  · exact transformerTemporal_forward_flag _ hidden ehs am (get_transformer_temporal_not_cross c len)
  · apply transformerTemporal_forward_flag _ hidden ehs am
    intro tb htb
    exact get_transformer_temporal_not_cross c len tb htb

/-- A weight dictionary that passes both validators and has a middle-level
temporal key. -/
def dictMidV2 : StateDict :=
  [("down_blocks.0.motion_modules.0.temporal_transformer.transformer_blocks.0.attention_blocks.0.pos_encoder.positional_encoding",
    ⟨[1, 24, 320]⟩),
   ("down_blocks.2.motion_modules.0.temporal_transformer.proj_in.weight", ⟨[1280, 1280]⟩),
   ("mid_block.motion_modules.0.temporal_transformer.proj_in.weight", ⟨[1280, 1280]⟩)]

/-- A weight dictionary that passes both validators and has no middle-level
temporal key. -/
def dictNoMidV1 : StateDict :=
  [("down_blocks.0.motion_modules.0.temporal_transformer.transformer_blocks.0.attention_blocks.0.pos_encoder.positional_encoding",
    ⟨[1, 24, 320]⟩),
   ("down_blocks.2.motion_modules.0.temporal_transformer.proj_in.weight", ⟨[1280, 1280]⟩)]

/-- C1 (code bug): on a weight dictionary that passes both validators and
holds a middle-level temporal key, construction raises TypeError — the
source passes the keyword `BlockType`, which HotShotXLMotionModule.__init__
does not accept — instead of producing a wrapper with a mid block and
version "HSXL v2".  Without such a key, construction succeeds with a null
mid_block and version "HSXL v1" as claimed. -/
theorem c1_mid_block_constructor_type_error :
    has_mid_block dictMidV2 = true ∧
    HotShotXLMotionWrapper.init dictMidV2 "hashC1" "mmC1" none
      = .error (.typeError
          "HotShotXLMotionModule.__init__ got an unexpected keyword argument BlockType") ∧
    has_mid_block dictNoMidV1 = false ∧
    HotShotXLMotionWrapper.init dictNoMidV1 "hashC1" "mmC1" none
      = .ok (buildWrapper 24 none "hashC1" "mmC1" none) ∧
    (buildWrapper 24 none "hashC1" "mmC1" none).mid_block = none ∧
    (buildWrapper 24 none "hashC1" "mmC1" none).version = "HSXL v1" :=
  ⟨by decide, rfl, by decide, rfl, rfl, rfl⟩

/-- Same validators-passing, mid-block-bearing dictionary with other key
spellings, for the error-kind claim. -/
def dictMidC2 : StateDict :=
  [("down_blocks.2.attentions.0.pos_encoder.positional_encoding", ⟨[1, 24, 1280]⟩),
   ("mid_block.attentions.0.temporal_transformer.norm.weight", ⟨[1280]⟩)]

/-- C2 (code bug): construction can fail with a TypeError — an exception
kind other than the checkpoint-incompatibility error — whenever the
dictionary passes both validators and has a middle-level temporal key,
because of the `BlockType` keyword slip. -/
theorem c2_type_error_escapes_construction :
    HotShotXLMotionWrapper.init dictMidC2 "hashC2" "mmC2" none
      = .error (.typeError
          "HotShotXLMotionModule.__init__ got an unexpected keyword argument BlockType") :=
  rfl

/-- The down-level index scan as the specification words it: in each key
containing the down-level marker, the segment immediately FOLLOWING the
marker segment is parsed as an integer index (non-numeric or absent
following segments are skipped), and the maximum over all keys is tracked
from 0.  This definition follows the spec text only, for comparison with
validate_hsxl_block_count, which instead always parses the key's second
dotted segment. -/
def segAfterMarker : List String → Option Int
  | [] => none
  | [_] => none
  | a :: b :: rest =>
    if a = "down_blocks" then
      match pyInt? b with
      | some i => some i
      | none => segAfterMarker (b :: rest)
    else segAfterMarker (b :: rest)

/-- The maximum down-level index under the spec reading (see segAfterMarker). -/
def specMaxDownBlockIndex (d : StateDict) : Int :=
  d.foldl
    (fun acc kv =>
      if strContainsSub kv.1 "down_blocks" then
        match segAfterMarker (splitDot kv.1) with
        | some i => if i > acc then i else acc
        | none => acc
      else acc) 0

/-- A dictionary whose spec-read maximum down-level index is 5, while the
second dotted segment of its down key is "2". -/
def dictC4 : StateDict :=
  [("a.2.down_blocks.5.x", ⟨[8]⟩),
   ("p.pos_encoder.positional_encoding", ⟨[1, 24, 320]⟩)]

/-- C4 (counterexample): a dictionary whose maximum down-level index in the
sense of the claim — the integer segment following the marker — is 5, not
2, yet construction succeeds, because the code parses the second dotted
segment of the key, not the segment after the marker. -/
theorem c4_counterexample :
    specMaxDownBlockIndex dictC4 = 5 ∧ (5 : Int) ≠ 2 ∧
    HotShotXLMotionWrapper.init dictC4 "hashC4" "mmC4" none
      = .ok (buildWrapper 24 none "hashC4" "mmC4" none) :=
  ⟨by decide, by decide, rfl⟩

/-- C4 (amended): validate_hsxl_block_count parses the SECOND dotted
segment of every key containing the down-level marker (skipping segments
that do not parse as integers); whenever that scan completes with a maximum
other than 2, construction fails with the checkpoint-incompatibility error,
even though a valid positional-encoding key is present. -/
theorem c4_amended_second_segment_scan (d : StateDict) (mm_hash mm_name : String)
    (loras : Option (List MotionLoRAInfo)) (m : Int) (n : Nat)
    (hpos : get_hsxl_temporal_position_encoding_max_len d mm_name = .ok n)
    (hmax : biggestDownBlock d 0 = .ok m) (hm : m ≠ 2) :
    HotShotXLMotionWrapper.init d mm_hash mm_name loras
      = .error (.motionCompatibilityError
          ("Expected biggest down_block to be 2, but was " ++ toString m
            ++ " - " ++ mm_name ++ " is not a valid HotShotXL motion module!")) := by
  unfold HotShotXLMotionWrapper.init HotShotXLMotionWrapper.initCore
  rw [hpos]
  unfold validate_hsxl_block_count
  rw [hmax]
  simp [hm]

/-- A dictionary with a valid positional-encoding key and no down-level key
at all, so the scanned maximum stays 0. -/
def dictC4W : StateDict := [("q.pos_encoder.positional_encoding", ⟨[1, 24, 320]⟩)]

/-- C4 witness: the amended theorem applied at a concrete dictionary. -/
theorem c4_amended_witness :
    get_hsxl_temporal_position_encoding_max_len dictC4W "mmC4w" = .ok 24 ∧
    biggestDownBlock dictC4W 0 = .ok 0 ∧
    HotShotXLMotionWrapper.init dictC4W "hashC4w" "mmC4w" none
      = .error (.motionCompatibilityError
          "Expected biggest down_block to be 2, but was 0 - mmC4w is not a valid HotShotXL motion module!") :=
  ⟨rfl, rfl, c4_amended_second_segment_scan dictC4W "hashC4w" "mmC4w" none 0 24 rfl rfl (by decide)⟩

/-- Inversion of a successful construction: the positional-encoding lookup
succeeded with some n, and the wrapper is exactly the record the source
builds from n (with no mid block, as the mid branch always raises). -/
theorem init_ok_inv (d : StateDict) (mm_hash mm_name : String)
    (loras : Option (List MotionLoRAInfo)) (w : HotShotXLMotionWrapper)
    (hok : HotShotXLMotionWrapper.init d mm_hash mm_name loras = .ok w) :
    ∃ n, get_hsxl_temporal_position_encoding_max_len d mm_name = .ok n ∧
      w = buildWrapper n none mm_hash mm_name loras := by
  unfold HotShotXLMotionWrapper.init HotShotXLMotionWrapper.initCore at hok
  cases hg : get_hsxl_temporal_position_encoding_max_len d mm_name with
  | error e => rw [hg] at hok; exact absurd hok (by simp)
  | ok n =>
    rw [hg] at hok
    cases hv : validate_hsxl_block_count d mm_name with
    | error e => rw [hv] at hok; exact absurd hok (by simp)
    | ok u =>
      rw [hv] at hok
      by_cases hmid : has_mid_block d
      · simp [hmid] at hok
      · simp only [hmid, if_false, Bool.false_eq_true] at hok
        exact ⟨n, rfl, (Except.ok.injEq _ _ ▸ hok).symm⟩

/-- C5: with no key ending in the positional-encoding suffix, construction
fails with the checkpoint-incompatibility error; when such a key exists,
the derived maximum sequence length is the middle dimension (size(1)) of
that first matching tensor, and a successful construction stores exactly
that value as the wrapper's encoding_max_len. -/
theorem c5_positional_encoding_key (d : StateDict) (mm_hash mm_name : String)
    (loras : Option (List MotionLoRAInfo)) :
    ((∀ kv ∈ d, strEndsWith kv.1 "pos_encoder.positional_encoding" = false) →
      HotShotXLMotionWrapper.init d mm_hash mm_name loras
        = .error (.motionCompatibilityError
            ("No pos_encoder.positional_encoding found in mm_state_dict - " ++ mm_name
              ++ " is not a valid HotShotXL motion module!"))) ∧
    (∀ k t m,
      d.find? (fun kv => strEndsWith kv.1 "pos_encoder.positional_encoding") = some (k, t) →
      t.shape.get? 1 = some m →
      get_hsxl_temporal_position_encoding_max_len d mm_name = .ok m ∧
      ∀ w, HotShotXLMotionWrapper.init d mm_hash mm_name loras = .ok w →
        w.encoding_max_len = m) := by
  constructor
  · intro hnone
    have hfind : d.find? (fun kv => strEndsWith kv.1 "pos_encoder.positional_encoding") = none :=
      List.find?_eq_none.mpr (fun kv hkv => by simp [hnone kv hkv])
    unfold HotShotXLMotionWrapper.init HotShotXLMotionWrapper.initCore
      get_hsxl_temporal_position_encoding_max_len
    rw [hfind]
  · intro k t m hfind hshape
    have hget : get_hsxl_temporal_position_encoding_max_len d mm_name = .ok m := by
      unfold get_hsxl_temporal_position_encoding_max_len
      rw [hfind]
      rw [List.get?_eq_getElem?] at hshape
      simp [hshape]
    refine ⟨hget, ?_⟩
    intro w hw
    obtain ⟨n, hn, hwn⟩ := init_ok_inv d mm_hash mm_name loras w hw
    rw [hget] at hn
    cases hn
    rw [hwn]
    rfl

/-- A dictionary with no positional-encoding key at all. -/
def dictC5A : StateDict := [("x.weight", ⟨[3]⟩)]

/-- A valid dictionary whose positional-encoding tensor has middle
dimension 32. -/
def dictC5B : StateDict :=
  [("u.pos_encoder.positional_encoding", ⟨[1, 32, 640]⟩),
   ("down_blocks.2.a", ⟨[2]⟩)]

/-- C5 witness: both halves applied at concrete dictionaries. -/
theorem c5_witness :
    HotShotXLMotionWrapper.init dictC5A "h5" "mm5" none
      = .error (.motionCompatibilityError
          "No pos_encoder.positional_encoding found in mm_state_dict - mm5 is not a valid HotShotXL motion module!") ∧
    get_hsxl_temporal_position_encoding_max_len dictC5B "mm5" = .ok 32 ∧
    (buildWrapper 32 none "h5" "mm5" none).encoding_max_len = 32 := by
  have h1 := (c5_positional_encoding_key dictC5A "h5" "mm5" none).1 (by decide)
  have h2 := (c5_positional_encoding_key dictC5B "h5" "mm5" none).2
    "u.pos_encoder.positional_encoding" ⟨[1, 32, 640]⟩ 32 rfl rfl
  exact ⟨h1, h2.1, h2.2 (buildWrapper 32 none "h5" "mm5" none) rfl⟩

/-- A valid dictionary with no mid-block key, used to inspect the
construction trace. -/
def dictC6 : StateDict :=
  [("r.pos_encoder.positional_encoding", ⟨[1, 24, 320]⟩),
   ("down_blocks.2.b", ⟨[4]⟩)]

/-- C6 (counterexample): in the construction trace of a valid dictionary
the has_mid_block check occurs, but not before the module constructions —
the prefix of the trace before the first module construction does not
contain it, refuting the claim that all three validators run before any
module is instantiated. -/
theorem c6_counterexample :
    InitEvent.checkMidBlock ∈ initTrace dictC6 "hashC6" "mmC6" none ∧
    InitEvent.checkMidBlock ∉
      (initTrace dictC6 "hashC6" "mmC6" none).takeWhile (fun e => !e.isBuild) := by
  decide

/-- C6 (amended): the two fallible validators run first, in their stated
order, before any module is instantiated; has_mid_block, however, is
evaluated only after the three down and three up modules are constructed,
and before the mid module would be. -/
theorem c6_amended_trace (d : StateDict) (mm_hash mm_name : String)
    (loras : Option (List MotionLoRAInfo)) (n : Nat)
    (h1 : get_hsxl_temporal_position_encoding_max_len d mm_name = .ok n)
    (h2 : validate_hsxl_block_count d mm_name = .ok ()) :
    initTrace d mm_hash mm_name loras
      = [InitEvent.validateMaxLen, InitEvent.validateBlockCount,
         InitEvent.buildModule BlockType.DOWN 320, InitEvent.buildModule BlockType.DOWN 640,
         InitEvent.buildModule BlockType.DOWN 1280, InitEvent.buildModule BlockType.UP 1280,
         InitEvent.buildModule BlockType.UP 640, InitEvent.buildModule BlockType.UP 320,
         InitEvent.checkMidBlock]
        ++ (if has_mid_block d then [InitEvent.raiseTypeError] else []) := by
  unfold initTrace HotShotXLMotionWrapper.initCore
  rw [h1, h2]
  by_cases hmid : has_mid_block d <;> simp [hmid]

/-- C6 witness: the amended trace at a concrete valid dictionary. -/
theorem c6_amended_witness :
    initTrace dictC6 "hashC6w" "mmC6w" none
      = [InitEvent.validateMaxLen, InitEvent.validateBlockCount,
         InitEvent.buildModule BlockType.DOWN 320, InitEvent.buildModule BlockType.DOWN 640,
         InitEvent.buildModule BlockType.DOWN 1280, InitEvent.buildModule BlockType.UP 1280,
         InitEvent.buildModule BlockType.UP 640, InitEvent.buildModule BlockType.UP 320,
         InitEvent.checkMidBlock] := by
  have h := c6_amended_trace dictC6 "hashC6w" "mmC6w" none 24 rfl rfl
  simpa using h

/-- C7: a freshly constructed TemporalAttention carries no explicit scale;
setting the multiplier to None or to any value within math.isclose
tolerance of 1.0 reproduces exactly that default state, while any other
value is stored as the explicit attention-score scale. -/
theorem c7_set_scale_multiplier (max_length query_dim : Nat) (context_dim : Option Nat)
    (heads dim_head : Nat) (dropout : ℚ) (ta : TemporalAttention) (m : ℚ) :
    (TemporalAttention.init max_length query_dim context_dim heads dim_head dropout).scale = none ∧
    (ta.set_scale_multiplier none).scale = none ∧
    (isclose m 1 = true → (ta.set_scale_multiplier (some m)).scale = none) ∧
    (isclose m 1 = false → (ta.set_scale_multiplier (some m)).scale = some m) := by
  refine ⟨rfl, rfl, ?_, ?_⟩
  · intro h
    simp [TemporalAttention.set_scale_multiplier, h]
  · intro h
    simp [TemporalAttention.set_scale_multiplier, h]

/-- A multiplier of exactly 1.0 is within the isclose tolerance of 1.0. -/
theorem isclose_one_one : isclose 1 1 = true := by
  simp [isclose]

/-- A multiplier of 2.0 is outside the isclose tolerance of 1.0. -/
theorem isclose_two_one : isclose 2 1 = false := by
  simp only [isclose, decide_eq_false_iff_not]
  intro h
  have habs : |(2 : ℚ) - 1| = 1 := by norm_num
  have hm1 : max |(2 : ℚ)| |(1 : ℚ)| = 2 := by
    rw [abs_of_nonneg (by norm_num : (0:ℚ) ≤ 2), abs_of_nonneg (by norm_num : (0:ℚ) ≤ 1)]
    norm_num
  rw [habs, hm1] at h
  have : max ((1 : ℚ) / 1000000000 * 2) 0 = 1 / 500000000 := by
    rw [max_eq_left (by norm_num : (0:ℚ) ≤ 1 / 1000000000 * 2)]
    norm_num
  rw [this] at h
  norm_num at h

/-- C7 witness: a value within tolerance of 1.0 clears the scale, a value
outside the tolerance is stored. -/
theorem c7_witness :
    isclose 1 1 = true ∧
    ((TemporalAttention.init 24 320 none 8 40 0).set_scale_multiplier (some 1)).scale = none ∧
    isclose 2 1 = false ∧
    ((TemporalAttention.init 24 320 none 8 40 0).set_scale_multiplier (some 2)).scale = some 2 :=
  ⟨isclose_one_one,
   (c7_set_scale_multiplier 24 320 none 8 40 0
      (TemporalAttention.init 24 320 none 8 40 0) 1).2.2.1 isclose_one_one,
   isclose_two_one,
   (c7_set_scale_multiplier 24 320 none 8 40 0
      (TemporalAttention.init 24 320 none 8 40 0) 2).2.2.2 isclose_two_one⟩

/-- C8: for every successfully constructed wrapper, has_loras is true iff
the LoRA list supplied at construction was non-null; an empty but non-null
list still yields true, and only null yields false. -/
theorem c8_has_loras (d : StateDict) (mm_hash mm_name : String)
    (loras : Option (List MotionLoRAInfo)) (w : HotShotXLMotionWrapper)
    (hok : HotShotXLMotionWrapper.init d mm_hash mm_name loras = .ok w) :
    w.has_loras = loras.isSome ∧
    (loras = some [] → w.has_loras = true) ∧
    (loras = none → w.has_loras = false) := by
  obtain ⟨n, _, rfl⟩ := init_ok_inv d mm_hash mm_name loras w hok
  refine ⟨rfl, ?_, ?_⟩
  · intro h
    subst h
    rfl
  · intro h
    subst h
    rfl

/-- A valid dictionary for the has_loras witness. -/
def dictC8 : StateDict :=
  [("t.pos_encoder.positional_encoding", ⟨[1, 24, 320]⟩),
   ("down_blocks.2.d", ⟨[4]⟩)]

/-- C8 witness: an empty LoRA list yields true, a null one yields false. -/
theorem c8_witness :
    (buildWrapper 24 none "h8" "mm8" (some [])).has_loras = true ∧
    (buildWrapper 24 none "h8" "mm8" none).has_loras = false :=
  ⟨(c8_has_loras dictC8 "h8" "mm8" (some [])
      (buildWrapper 24 none "h8" "mm8" (some [])) rfl).2.1 rfl,
   (c8_has_loras dictC8 "h8" "mm8" none
      (buildWrapper 24 none "h8" "mm8" none) rfl).2.2 rfl⟩

theorem flatMap_map_eq {α β γ : Type} (f : α → β) (g : β → List γ) (l : List α) :
    (l.map f).flatMap g = l.flatMap (fun a => g (f a)) := by
  induction l with
  | nil => rfl
  | cons a as ih => simp [ih]

@[simp] theorem ta_pos_encoder_set_scale_multiplier
    (ta : TemporalAttention) (m : Option ℚ) :
    (ta.set_scale_multiplier m).pos_encoder = ta.pos_encoder := by
  cases m with
  | none => rfl
  | some q =>
    by_cases h : isclose q 1 <;> simp [TemporalAttention.set_scale_multiplier, h]

@[simp] theorem tb_posEncMaxLens_set_scale_multiplier
    (tb : TransformerBlock) (m : Option ℚ) :
    (tb.set_scale_multiplier m).posEncMaxLens = tb.posEncMaxLens := by
  simp [TransformerBlock.set_scale_multiplier, TransformerBlock.posEncMaxLens,
    List.map_map, Function.comp]

@[simp] theorem tt_posEncMaxLens_set_video_length
    (tt : TransformerTemporal) (vl fl : Nat) :
    (tt.set_video_length vl fl).posEncMaxLens = tt.posEncMaxLens := rfl

@[simp] theorem tt_posEncMaxLens_set_scale_multiplier
    (tt : TransformerTemporal) (m : Option ℚ) :
    (tt.set_scale_multiplier m).posEncMaxLens = tt.posEncMaxLens := by
  simp [TransformerTemporal.set_scale_multiplier, TransformerTemporal.posEncMaxLens,
    flatMap_map_eq]

@[simp] theorem tt_posEncMaxLens_set_masks
    (tt : TransformerTemporal) (masks : Tensor) (mn mx : ℚ) :
    (tt.set_masks masks mn mx).posEncMaxLens = tt.posEncMaxLens := rfl

@[simp] theorem tt_posEncMaxLens_set_sub_idxs
    (tt : TransformerTemporal) (si : Option (List Nat)) :
    (tt.set_sub_idxs si).posEncMaxLens = tt.posEncMaxLens := rfl

@[simp] theorem tt_posEncMaxLens_reset_temp_vars
    (tt : TransformerTemporal) :
    tt.reset_temp_vars.posEncMaxLens = tt.posEncMaxLens := rfl

@[simp] theorem mm_posEncMaxLens_set_video_length
    (mm : HotShotXLMotionModule) (vl fl : Nat) :
    (mm.set_video_length vl fl).posEncMaxLens = mm.posEncMaxLens := by
  simp [HotShotXLMotionModule.set_video_length, HotShotXLMotionModule.posEncMaxLens,
    flatMap_map_eq]

@[simp] theorem mm_posEncMaxLens_set_scale_multiplier
    (mm : HotShotXLMotionModule) (m : Option ℚ) :
    (mm.set_scale_multiplier m).posEncMaxLens = mm.posEncMaxLens := by
  simp [HotShotXLMotionModule.set_scale_multiplier, HotShotXLMotionModule.posEncMaxLens,
    flatMap_map_eq]

@[simp] theorem mm_posEncMaxLens_set_masks
    (mm : HotShotXLMotionModule) (masks : Tensor) (mn mx : ℚ) :
    (mm.set_masks masks mn mx).posEncMaxLens = mm.posEncMaxLens := by
  simp [HotShotXLMotionModule.set_masks, HotShotXLMotionModule.posEncMaxLens,
    flatMap_map_eq]

@[simp] theorem mm_posEncMaxLens_set_sub_idxs
    (mm : HotShotXLMotionModule) (si : Option (List Nat)) :
    (mm.set_sub_idxs si).posEncMaxLens = mm.posEncMaxLens := by
  simp [HotShotXLMotionModule.set_sub_idxs, HotShotXLMotionModule.posEncMaxLens,
    flatMap_map_eq]

@[simp] theorem mm_posEncMaxLens_reset_temp_vars
    (mm : HotShotXLMotionModule) :
    mm.reset_temp_vars.posEncMaxLens = mm.posEncMaxLens := by
  simp [HotShotXLMotionModule.reset_temp_vars, HotShotXLMotionModule.posEncMaxLens,
    flatMap_map_eq]

theorem wrap_posEncMaxLens_set_video_length
    (w : HotShotXLMotionWrapper) (vl fl : Nat) :
    (w.set_video_length vl fl).posEncMaxLens = w.posEncMaxLens := by
  cases hmid : w.mid_block <;>
    simp [HotShotXLMotionWrapper.set_video_length, HotShotXLMotionWrapper.posEncMaxLens,
      flatMap_map_eq, hmid]

theorem wrap_posEncMaxLens_set_scale_multiplier
    (w : HotShotXLMotionWrapper) (m : Option ℚ) :
    (w.set_scale_multiplier m).posEncMaxLens = w.posEncMaxLens := by
  cases hmid : w.mid_block <;>
    simp [HotShotXLMotionWrapper.set_scale_multiplier, HotShotXLMotionWrapper.posEncMaxLens,
      flatMap_map_eq, hmid]

theorem wrap_posEncMaxLens_set_masks
    (w : HotShotXLMotionWrapper) (masks : Tensor) (mn mx : ℚ) :
    (w.set_masks masks mn mx).posEncMaxLens = w.posEncMaxLens := by
  cases hmid : w.mid_block <;>
    simp [HotShotXLMotionWrapper.set_masks, HotShotXLMotionWrapper.posEncMaxLens,
      flatMap_map_eq, hmid]

theorem wrap_posEncMaxLens_set_sub_idxs
    (w : HotShotXLMotionWrapper) (si : Option (List Nat)) :
    (w.set_sub_idxs si).posEncMaxLens = w.posEncMaxLens := by
  cases hmid : w.mid_block <;>
    simp [HotShotXLMotionWrapper.set_sub_idxs, HotShotXLMotionWrapper.posEncMaxLens,
      flatMap_map_eq, hmid]

theorem wrap_posEncMaxLens_reset_temp_vars
    (w : HotShotXLMotionWrapper) :
    w.reset_temp_vars.posEncMaxLens = w.posEncMaxLens := by
  cases hmid : w.mid_block <;>
    simp [HotShotXLMotionWrapper.reset_temp_vars, HotShotXLMotionWrapper.posEncMaxLens,
      flatMap_map_eq, hmid]

/-- C9: in every successfully constructed wrapper the max sequence length
derived from the weights sizes every PositionalEncoding buffer in the tree
(all buffer middle dimensions equal encoding_max_len), and none of the five
setters changes either encoding_max_len or any positional encoder's size. -/
theorem c9_encoding_max_len_invariant (d : StateDict) (mm_hash mm_name : String)
    (loras : Option (List MotionLoRAInfo)) (w : HotShotXLMotionWrapper)
    (hok : HotShotXLMotionWrapper.init d mm_hash mm_name loras = .ok w) :
    (w.posEncMaxLens.all (fun x => x == w.encoding_max_len) = true) ∧
    (∀ vl fl, (w.set_video_length vl fl).encoding_max_len = w.encoding_max_len ∧
      (w.set_video_length vl fl).posEncMaxLens = w.posEncMaxLens) ∧
    (∀ mult, (w.set_scale_multiplier mult).encoding_max_len = w.encoding_max_len ∧
      (w.set_scale_multiplier mult).posEncMaxLens = w.posEncMaxLens) ∧
    (∀ masks mn mx, (w.set_masks masks mn mx).encoding_max_len = w.encoding_max_len ∧
      (w.set_masks masks mn mx).posEncMaxLens = w.posEncMaxLens) ∧
    (∀ si, (w.set_sub_idxs si).encoding_max_len = w.encoding_max_len ∧
      (w.set_sub_idxs si).posEncMaxLens = w.posEncMaxLens) ∧
    (w.reset_temp_vars.encoding_max_len = w.encoding_max_len ∧
      w.reset_temp_vars.posEncMaxLens = w.posEncMaxLens) := by
  obtain ⟨n, -, rfl⟩ := init_ok_inv d mm_hash mm_name loras w hok
  refine ⟨?_,
    fun vl fl => ⟨rfl, wrap_posEncMaxLens_set_video_length _ vl fl⟩,
    fun mult => ⟨rfl, wrap_posEncMaxLens_set_scale_multiplier _ mult⟩,
    fun masks mn mx => ⟨rfl, wrap_posEncMaxLens_set_masks _ masks mn mx⟩,
    fun si => ⟨rfl, wrap_posEncMaxLens_set_sub_idxs _ si⟩,
    ⟨rfl, wrap_posEncMaxLens_reset_temp_vars _⟩⟩
  simp [buildWrapper, HotShotXLMotionWrapper.posEncMaxLens,
    HotShotXLMotionModule.posEncMaxLens, HotShotXLMotionModule.init,
    TransformerTemporal.posEncMaxLens, get_transformer_temporal,
    TransformerTemporal.init, TransformerBlock.posEncMaxLens, TransformerBlock.init,
    TemporalAttention.init, PositionalEncoding.init]

/-- A valid dictionary whose positional-encoding tensor has middle
dimension 16. -/
def dictC9 : StateDict :=
  [("v.pos_encoder.positional_encoding", ⟨[1, 16, 320]⟩),
   ("down_blocks.2.e", ⟨[4]⟩)]

/-- C9 witness: the invariant at a concrete construction, with the setters
applied at concrete arguments. -/
theorem c9_witness :
    ((buildWrapper 16 none "h9" "mm9" none).posEncMaxLens.all
      (fun x => x == (buildWrapper 16 none "h9" "mm9" none).encoding_max_len) = true) ∧
    ((buildWrapper 16 none "h9" "mm9" none).set_video_length 4 8).posEncMaxLens
      = (buildWrapper 16 none "h9" "mm9" none).posEncMaxLens ∧
    ((buildWrapper 16 none "h9" "mm9" none).set_scale_multiplier (some 3)).encoding_max_len
      = (buildWrapper 16 none "h9" "mm9" none).encoding_max_len ∧
    ((buildWrapper 16 none "h9" "mm9" none).set_masks ⟨[1, 8]⟩ 0 1).posEncMaxLens
      = (buildWrapper 16 none "h9" "mm9" none).posEncMaxLens ∧
    ((buildWrapper 16 none "h9" "mm9" none).set_sub_idxs (some [0, 1])).posEncMaxLens
      = (buildWrapper 16 none "h9" "mm9" none).posEncMaxLens ∧
    (buildWrapper 16 none "h9" "mm9" none).reset_temp_vars.posEncMaxLens
      = (buildWrapper 16 none "h9" "mm9" none).posEncMaxLens := by
  have h := c9_encoding_max_len_invariant dictC9 "h9" "mm9" none
    (buildWrapper 16 none "h9" "mm9" none) rfl
  exact ⟨h.1, (h.2.1 4 8).2, (h.2.2.1 (some 3)).1, (h.2.2.2.1 ⟨[1, 8]⟩ 0 1).2,
    (h.2.2.2.2.1 (some [0, 1])).2, h.2.2.2.2.2.2⟩

example : (get_transformer_temporal 320 24).forward [8, 320, 2, 2] none none
    = (.ok [8, 320, 2, 2], false) := by decide
example : ((get_transformer_temporal 64 24).set_video_length 4 8).forward [8, 64, 1, 3] none none
    = (.ok [8, 64, 1, 3], false) := by decide
example : strEndsWith "a.pos_encoder.positional_encoding" "pos_encoder.positional_encoding" = true := by decide
example : splitDot "down_blocks.2.x" = ["down_blocks", "2", "x"] := by decide
example : pyInt? "2" = some 2 := by decide
example : pyInt? "down_blocks" = none := by decide
example : biggestDownBlock [("down_blocks.2.x", ⟨[3]⟩)] 0 = .ok 2 := by decide
example : biggestDownBlock [("down_blocks", ⟨[3]⟩)] 0 = .error (.indexError "list index out of range") := by decide
example : has_mid_block [("mid_block.temporal_transformer.a", ⟨[3]⟩)] = true := by decide
example : get_hsxl_temporal_position_encoding_max_len
    [("a.pos_encoder.positional_encoding", ⟨[1, 24, 320]⟩)] "mm" = .ok 24 := by decide

end MotionHSXL
